import Mathlib

/-!
Shallow embedding of the Swasthya backend (`src/backend/main.py`), a FastAPI
service persisting personal-health records in a vector store.

External collaborators (the sentence-embedding model, the PDF text extractor,
the OCR engine, the vector store's similarity search, the system clock and the
uuid generator) are opaque per the design: handlers receive their results as
explicit arguments.  Python exceptions are modelled by `Except Exn`; a handler
written inside a `try`/`except` block becomes a total function on payloads,
while a handler with no `try` returns `Except Exn _` and lets failures escape.
Python strings are Lean `String`s; the Python string primitives used by the
handlers (`lower`, `endswith`, `strip`, slicing, `<=`, concatenation) are
modelled by structurally recursive functions over `String.data` below.
-/

namespace Swasthya

/-- A Python exception: `pypdf.errors.PdfReadError` is caught by name in
`upload_prescription`; every other exception is modelled with its `str(e)`
message. -/
inductive Exn
  | pdfRead
  | generic (msg : String)
deriving DecidableEq, Repr

/-- `str(e)` for a caught exception. -/
def Exn.message : Exn → String
  | .pdfRead => "PdfReadError"
  | .generic m => m

/-- Embedding vectors (`model.encode(text).tolist()`); floats modelled as `ℚ`. -/
abbrev Vec := List ℚ

/-- The payload of one point in the `health_memory` collection.  Different
record types populate different keys of the Python payload dict; absent keys
are `none`. -/
structure Record where
  id : String
  vector : Vec
  type : String
  modality : Option String := none
  content : String
  metric : Option String := none
  date : Option String := none
  uploaded_at : Option String := none
  child_name : Option String := none
  vaccine : Option String := none
  age_months : Option Int := none
deriving DecidableEq, Repr

/-- The vector store, in insertion order.  Every write uses a fresh uuid, so
`client.upsert` never overwrites: it appends. -/
abbrev Store := List Record

/-- `client.upsert(collection_name=..., points=[r])` with a fresh id. -/
def upsert (r : Record) (s : Store) : Store := s ++ [r]

/-! ### Models of the Python string primitives used by the handlers -/

/-- `str.lower()` on the ASCII range (filenames). -/
def asciiLower (c : Char) : Char :=
  if 65 ≤ c.toNat ∧ c.toNat ≤ 90 then Char.ofNat (c.toNat + 32) else c

/-- `str.lower()`. -/
def lower (s : String) : String := ⟨s.data.map asciiLower⟩

/-- `str.endswith(suffix)`. -/
def endswith (s suf : String) : Bool :=
  s.data.drop (s.data.length - suf.data.length) == suf.data

/-- `str.strip()` with no argument: remove leading and trailing whitespace. -/
def strip (s : String) : String :=
  ⟨((s.data.dropWhile Char.isWhitespace).reverse.dropWhile Char.isWhitespace).reverse⟩

/-- `s[:n]` on a Python string (first `n` code points). -/
def pyslice (s : String) (n : Nat) : String := ⟨s.data.take n⟩

/-- Lexicographic code-point comparison on character lists. -/
def lexle : List Char → List Char → Bool
  | [], _ => true
  | _ :: _, [] => false
  | a :: as, b :: bs =>
    if a.toNat < b.toNat then true
    else if b.toNat < a.toNat then false
    else lexle as bs

/-- Python `<=` on strings: lexicographic by code point. -/
def strLe (a b : String) : Bool := lexle a.data b.data

/-! ### Calendar dates (`datetime.date`) -/

/-- A parsed calendar date (`datetime.fromisoformat(s).date()`).  Parsing
itself is a stdlib collaborator; handlers receive its result. -/
structure Date where
  year : Int
  month : Int
  day : Int
deriving DecidableEq, Repr

/-- A structurally valid ISO-8601 calendar date. -/
def Date.valid (d : Date) : Prop :=
  1 ≤ d.month ∧ d.month ≤ 12 ∧ 1 ≤ d.day ∧ d.day ≤ 31

instance (d : Date) : Decidable d.valid := by unfold Date.valid; infer_instance

/-- `a` strictly precedes `b` in calendar order. -/
def Date.before (a b : Date) : Prop :=
  a.year < b.year ∨ (a.year = b.year ∧
    (a.month < b.month ∨ (a.month = b.month ∧ a.day < b.day)))

instance (a b : Date) : Decidable (a.before b) := by unfold Date.before; infer_instance

/-! ### `POST /add/vaccination` -/

/-- Line 232 of `main.py`:
`age_months = (vac_date.year - dob_date.year) * 12 + (vac_date.month - dob_date.month)`. -/
def ageMonths (dob vac : Date) : Int :=
  (vac.year - dob.year) * 12 + (vac.month - dob.month)

/-- The sentence synthesized for a vaccination record. -/
def vaccinationText (child_name vaccine_name : String) (age_months : Int)
    (vaccination_date : String) : String :=
  "Child " ++ child_name ++ " received " ++ vaccine_name ++ " vaccine " ++
    "at age " ++ toString age_months ++ " months on " ++ vaccination_date

/-- Response of `add_vaccination`. -/
inductive VaccResp
  | ok (child : String) (vaccine : String) (age_months : Int)
  | err (msg : String)
deriving DecidableEq, Repr

/-- The payload dict upserted by `add_vaccination`. -/
def vaccinationRecord (rid : String) (vector : Vec) (child_name vaccine_name : String)
    (age_months : Int) (vaccination_date text : String) : Record :=
  { id := rid, vector := vector, type := "vaccination",
    child_name := some child_name, vaccine := some vaccine_name,
    age_months := some age_months, date := some vaccination_date,
    content := text }

/-- The `try` block of `add_vaccination`.  `dobRes`/`vacRes` are the results of
`datetime.fromisoformat(...)` (which raises on malformed input), `embed` is
`model.encode`, `rid` the fresh uuid. -/
def addVaccinationBody (embed : String → Except Exn Vec)
    (child_name : String) (dobRes vacRes : Except Exn Date)
    (vaccine_name vaccination_date : String) (rid : String) (store : Store) :
    Except Exn (VaccResp × Store) := do
  let dob_date ← dobRes
  let vac_date ← vacRes
  let vector ← embed (vaccinationText child_name vaccine_name
    (ageMonths dob_date vac_date) vaccination_date)
  pure (.ok child_name vaccine_name (ageMonths dob_date vac_date),
    upsert (vaccinationRecord rid vector child_name vaccine_name
      (ageMonths dob_date vac_date) vaccination_date
      (vaccinationText child_name vaccine_name (ageMonths dob_date vac_date)
        vaccination_date)) store)

/-- `add_vaccination`: the body above wrapped in `except Exception as e:
return {"error": str(e)}`. -/
def add_vaccination (embed : String → Except Exn Vec)
    (child_name : String) (dobRes vacRes : Except Exn Date)
    (vaccine_name vaccination_date : String) (rid : String) (store : Store) :
    VaccResp × Store :=
  match addVaccinationBody embed child_name dobRes vacRes vaccine_name
      vaccination_date rid store with
  | .ok res => res
  | .error e => (.err e.message, store)

/-! ### `POST /upload/prescription` -/

/-- Lines 66-69 of `main.py`: `for page in reader.pages: text =
page.extract_text(); if text: extracted_text += text`. -/
def pdfConcat (pages : List String) : String :=
  pages.foldl (fun acc t => if t == "" then acc else acc ++ t) ""

/-- Response of `upload_prescription`: the success dict carries
`status = "Prescription stored successfully"`, the modality and
`characters_saved`; failures carry an `error` message. -/
inductive PrescResp
  | ok (modality : String) (characters_saved : Nat)
  | err (msg : String)
deriving DecidableEq, Repr

/-- The payload dict upserted by `upload_prescription`. -/
def prescriptionRecord (rid : String) (vector : Vec) (modality text now : String) :
    Record :=
  { id := rid, vector := vector, type := "prescription",
    modality := some modality, content := text, uploaded_at := some now }

/-- Lines 81-104 of `main.py`: the strip check, embedding, upsert and success
response shared by the pdf and image branches. -/
def prescFinish (embed : String → Except Exn Vec) (modality extracted_text : String)
    (rid now : String) (store : Store) : Except Exn (PrescResp × Store) :=
  if strip extracted_text == "" then pure (.err "No readable text found", store)
  else do
    let vector ← embed extracted_text
    pure (.ok modality extracted_text.length,
      upsert (prescriptionRecord rid vector modality extracted_text now) store)

/-- The `try` block of `upload_prescription`.  `pdfRes` is the result of
`PdfReader(...)` plus per-page `extract_text` (raises `PdfReadError` on a
corrupt file); `imageRes` is the result of `Image.open(...).convert("RGB")`
plus `pytesseract.image_to_string`. -/
def uploadPrescriptionBody (embed : String → Except Exn Vec) (filename : String)
    (pdfRes : Except Exn (List String)) (imageRes : Except Exn String)
    (rid now : String) (store : Store) : Except Exn (PrescResp × Store) :=
  if endswith (lower filename) ".pdf" then do
    let pages ← pdfRes
    prescFinish embed "pdf" (pdfConcat pages) rid now store
  else if endswith (lower filename) ".png" || endswith (lower filename) ".jpg" ||
      endswith (lower filename) ".jpeg" then do
    let extracted_text ← imageRes
    prescFinish embed "image" extracted_text rid now store
  else
    pure (.err "Unsupported file type", store)

/-- The error message `upload_prescription` returns for a raised exception:
`PdfReadError` is caught first with a fixed message, everything else falls to
the generic `except Exception` clause. -/
def prescExnMessage : Exn → String
  | .pdfRead => "Invalid or corrupted PDF"
  | .generic m => m

/-- `upload_prescription`: the body wrapped in `except errors.PdfReadError:
return {"error": "Invalid or corrupted PDF"}` then `except Exception as e:
return {"error": str(e)}`. -/
def upload_prescription (embed : String → Except Exn Vec) (filename : String)
    (pdfRes : Except Exn (List String)) (imageRes : Except Exn String)
    (rid now : String) (store : Store) : PrescResp × Store :=
  match uploadPrescriptionBody embed filename pdfRes imageRes rid now store with
  | .ok res => res
  | .error .pdfRead => (.err "Invalid or corrupted PDF", store)
  | .error (.generic m) => (.err m, store)

/-! ### `POST /upload/report` -/

/-- Response of `upload_report`. -/
inductive ReportResp
  | ok
  | err (msg : String)
deriving DecidableEq, Repr

/-- The payload dict upserted by `upload_report`. -/
def reportRecord (rid : String) (vector : Vec) (text now : String) : Record :=
  { id := rid, vector := vector, type := "report",
    modality := some "image", content := text, uploaded_at := some now }

/-- The `try` block of `upload_report`: OCR the image, reject whitespace-only
text, embed and upsert. -/
def uploadReportBody (embed : String → Except Exn Vec)
    (imageRes : Except Exn String) (rid now : String) (store : Store) :
    Except Exn (ReportResp × Store) := do
  let extracted_text ← imageRes
  if strip extracted_text == "" then
    pure (.err "No readable text found in image", store)
  else do
    let vector ← embed extracted_text
    pure (.ok, upsert (reportRecord rid vector extracted_text now) store)

/-- `upload_report`: the body wrapped in `except Exception as e:
return {"error": str(e)}`. -/
def upload_report (embed : String → Except Exn Vec) (imageRes : Except Exn String)
    (rid now : String) (store : Store) : ReportResp × Store :=
  match uploadReportBody embed imageRes rid now store with
  | .ok res => res
  | .error e => (.err e.message, store)

/-! ### `POST /add/vitals` -/

/-- Python truthiness of an optional float query parameter: `if weight:` is
false for an absent parameter and for the value `0`. -/
def truthyQ : Option ℚ → Bool
  | none => false
  | some x => x != 0

/-- Python truthiness of an optional string query parameter: `if
blood_pressure:` is false for an absent parameter and for the empty string. -/
def truthyS : Option String → Bool
  | none => false
  | some s => s != ""

/-- Lines 155-161 of `main.py`: the `entries` list of `(metric, text)` pairs.
`fmt` models Python's float-to-string formatting. -/
def vitalsEntries (fmt : ℚ → String) (weight height : Option ℚ)
    (blood_pressure : Option String) (today : String) : List (String × String) :=
  (if truthyQ weight then
    [("weight", "Weight recorded: " ++ fmt (weight.getD 0) ++ " kg on " ++ today)]
   else []) ++
  (if truthyQ height then
    [("height", "Height recorded: " ++ fmt (height.getD 0) ++ " cm on " ++ today)]
   else []) ++
  (if truthyS blood_pressure then
    [("bp", "Blood Pressure recorded: " ++ blood_pressure.getD "" ++ " on " ++ today)]
   else [])

/-- The payload dict upserted for one vitals entry. -/
def vitalsRecord (rid : String) (vector : Vec) (metric text today : String) :
    Record :=
  { id := rid, vector := vector, type := "vitals", metric := some metric,
    content := text, date := some today }

/-- Lines 163-177 of `main.py`: `for metric, text in entries:` embed and
upsert one vitals record per entry; `ids i` is the uuid drawn at iteration
`i`. -/
def vitalsLoop (embed : String → Except Exn Vec) (ids : Nat → String)
    (today : String) : List (String × String) → Nat → Store → Except Exn Store
  | [], _, store => pure store
  | (metric, text) :: rest, i, store => do
    let vector ← embed text
    vitalsLoop embed ids today rest (i + 1)
      (upsert (vitalsRecord (ids i) vector metric text today) store)

/-- The records produced by a successful run of the vitals loop, starting at
uuid index `i`. -/
def vitalsRecords (embedF : String → Vec) (ids : Nat → String) (today : String) :
    List (String × String) → Nat → Store
  | [], _ => []
  | (metric, text) :: rest, i =>
    vitalsRecord (ids i) (embedF text) metric text today ::
      vitalsRecords embedF ids today rest (i + 1)

/-- `add_vitals`: no `try`/`except`, so collaborator failures escape the
handler.  The success payload is `{"status": "Vitals stored as long-term
memory"}`. -/
def add_vitals (embed : String → Except Exn Vec) (fmt : ℚ → String)
    (weight height : Option ℚ) (blood_pressure : Option String)
    (today : String) (ids : Nat → String) (store : Store) :
    Except Exn (String × Store) := do
  let s ← vitalsLoop embed ids today
    (vitalsEntries fmt weight height blood_pressure today) 0 store
  pure ("Vitals stored as long-term memory", s)

/-! ### `GET /trend/weight` -/

/-- One element of the `history` list: `{"date": ..., "record": ...}`. -/
structure TrendEntry where
  date : String
  record : String
deriving DecidableEq, Repr

/-- Response of `weight_trend`. -/
inductive TrendResp
  | noRecords (message : String)
  | ok (metric : String) (history : List TrendEntry) (insight : String)
deriving DecidableEq, Repr

/-- The scroll filter of `weight_trend`: `type = "vitals"` and
`metric = "weight"`. -/
def isWeightPoint (r : Record) : Bool :=
  r.type == "vitals" && r.metric == some "weight"

/-- `weight_trend`: scroll the store with the weight-vitals filter and
`limit=50`, then sort the `{"date", "record"}` dicts ascending by date
(Python `sorted` with a string key; vitals records always carry a date). -/
def weight_trend (store : Store) : TrendResp :=
  if ((store.filter isWeightPoint).take 50).isEmpty then
    .noRecords "No weight records found"
  else
    .ok "weight"
      ((((store.filter isWeightPoint).take 50).map fun p =>
        TrendEntry.mk (p.date.getD "") p.content).mergeSort
          fun a b => strLe a.date b.date)
      "Retrieved from long-term personal health memory"

/-! ### `POST /ask` -/

/-- One scored point returned by `client.query_points`. -/
structure ScoredPoint where
  payload : Record
  score : ℚ
deriving DecidableEq, Repr

/-- One element of `retrieved_records`: the handler reads payload keys with
`.get`, which yields `None` for an absent key. -/
structure RetrievedRec where
  type : Option String
  modality : Option String
  content : Option String
  score : ℚ
deriving DecidableEq, Repr

/-- Response of `ask_question`. -/
inductive AskResp
  | noResults (question answer : String)
  | results (question : String) (retrieved_records : List RetrievedRec)
      (explanation : String)
deriving DecidableEq, Repr

/-- The dict built for one retrieved point: `.get` on the payload yields the
value when the key is present and `None` otherwise. -/
def retrievedOf (p : ScoredPoint) : RetrievedRec :=
  { type := some p.payload.type, modality := p.payload.modality,
    content := some p.payload.content, score := p.score }

/-- `ask_question`: embed the question, query the store with `limit=5`
(`query_points` is the store's opaque similarity search, taking the query
vector and the limit), and shape the response.  No `try`/`except`: failures
escape the handler. -/
def ask_question (embed : String → Except Exn Vec)
    (query_points : Vec → Nat → Except Exn (List ScoredPoint))
    (question : String) : Except Exn AskResp := do
  let query_vector ← embed question
  let result ← query_points query_vector 5
  if result.isEmpty then
    pure (.noResults question "No relevant records found")
  else
    pure (.results question (result.map retrievedOf)
      "Results retrieved using semantic vector similarity from stored health memory")

/-! ### `GET /memory/all` -/

/-- One element of the listing: id, type, modality and the bounded
`preview = p.payload.get("content")[:200]`.  The full content is not part of
the response shape. -/
structure MemEntry where
  id : String
  type : Option String
  modality : Option String
  preview : String
deriving DecidableEq, Repr

/-- Response of `get_all_memory`. -/
structure MemoryResp where
  total_records : Nat
  records : List MemEntry
deriving DecidableEq, Repr

/-- The listing entry built for one stored record:
`preview = p.payload.get("content")[:200]`. -/
def memEntryOf (p : Record) : MemEntry :=
  { id := p.id, type := some p.type, modality := p.modality,
    preview := pyslice p.content 200 }

/-- `get_all_memory`: scroll up to 100 records and return bounded previews. -/
def get_all_memory (store : Store) : MemoryResp :=
  { total_records := (store.take 100).length,
    records := (store.take 100).map memEntryOf }

/-- Invariant claimed by the spec: every persisted record has non-empty
content. -/
def storeContentsNonempty (s : Store) : Prop := ∀ r ∈ s, r.content ≠ ""

/-! ## Theorems -/

/-- `pure` on `Except Exn` is `Except.ok`. -/
theorem exn_pure {α : Type} (a : α) : (pure a : Except Exn α) = .ok a := rfl

/-- Bind on a successful `Except Exn` computation. -/
theorem exn_bind_ok {α β : Type} (a : α) (f : α → Except Exn β) :
    (Except.ok a >>= f) = f a := rfl

/-- Bind on a failed `Except Exn` computation propagates the exception. -/
theorem exn_bind_error {α β : Type} (e : Exn) (f : α → Except Exn β) :
    ((Except.error e : Except Exn α) >>= f) = .error e := rfl

/-- A concatenation whose left part is non-empty is non-empty. -/
theorem append_ne_empty (s t : String) (h : s ≠ "") : s ++ t ≠ "" := by
  intro he
  apply h
  have hd := congrArg String.data he
  rw [String.data_append] at hd
  exact String.ext (List.append_eq_nil.mp hd).1

/-- A string with a non-whitespace character is non-empty. -/
theorem ne_empty_of_strip {s : String} (h : strip s ≠ "") : s ≠ "" := by
  intro hs
  subst hs
  exact h rfl

/-- Membership in a conditional singleton. -/
theorem mem_if_singleton {α : Type _} {c : Prop} [Decidable c] {x e : α}
    (h : e ∈ (if c then [x] else [])) : e = x := by
  split at h
  · simpa using h
  · simp at h

/-- Every synthesized vitals sentence is non-empty. -/
theorem vitalsEntries_text_ne (fmt : ℚ → String) (w h : Option ℚ)
    (bp : Option String) (today : String) :
    ∀ e ∈ vitalsEntries fmt w h bp today, e.2 ≠ "" := by
  intro e he
  unfold vitalsEntries at he
  rcases List.mem_append.mp he with h1 | hbp
  · rcases List.mem_append.mp h1 with hw | hh
    · rw [mem_if_singleton hw]
      exact append_ne_empty _ _ (append_ne_empty _ _
        (append_ne_empty _ _ (by decide)))
    · rw [mem_if_singleton hh]
      exact append_ne_empty _ _ (append_ne_empty _ _
        (append_ne_empty _ _ (by decide)))
  · rw [mem_if_singleton hbp]
    exact append_ne_empty _ _ (append_ne_empty _ _
      (append_ne_empty _ _ (by decide)))

/-- The synthesized vaccination sentence is non-empty. -/
theorem vaccinationText_ne (cn vn : String) (am : Int) (vd : String) :
    vaccinationText cn vn am vd ≠ "" := by
  unfold vaccinationText
  repeat apply append_ne_empty
  decide

/-- A successful `prescFinish` only adds records whose content is the
extracted text, which has a non-whitespace character. -/
theorem prescFinish_mem {embed : String → Except Exn Vec}
    {modality t rid now : String} {store : Store} {resp : PrescResp}
    {s' : Store}
    (h : prescFinish embed modality t rid now store = .ok (resp, s')) :
    ∀ r ∈ s', r ∈ store ∨ r.content ≠ "" := by
  unfold prescFinish at h
  split at h
  · rw [exn_pure] at h
    injection h with h2
    cases h2
    intro r hr
    exact Or.inl hr
  · rename_i hst
    cases he : embed t with
    | error e =>
      rw [he, exn_bind_error] at h
      simp at h
    | ok v =>
      rw [he, exn_bind_ok, exn_pure] at h
      injection h with h2
      cases h2
      intro r hr
      rcases List.mem_append.mp hr with h1 | h2
      · exact Or.inl h1
      · right
        have hr2 : r = prescriptionRecord rid v modality t now := by
          simpa using h2
        rw [hr2]
        show t ≠ ""
        intro ht
        apply hst
        rw [ht]
        rfl

/-- A successful run of the `upload_prescription` body only adds records with
non-empty content. -/
theorem uploadPrescriptionBody_mem {embed : String → Except Exn Vec}
    {fn : String} {pdfRes : Except Exn (List String)}
    {imgRes : Except Exn String} {rid now : String} {store : Store}
    {resp : PrescResp} {s' : Store}
    (h : uploadPrescriptionBody embed fn pdfRes imgRes rid now store =
      .ok (resp, s')) :
    ∀ r ∈ s', r ∈ store ∨ r.content ≠ "" := by
  unfold uploadPrescriptionBody at h
  split at h
  · cases hp : pdfRes with
    | error e => rw [hp, exn_bind_error] at h; simp at h
    | ok pages => rw [hp, exn_bind_ok] at h; exact prescFinish_mem h
  · split at h
    · cases hi : imgRes with
      | error e => rw [hi, exn_bind_error] at h; simp at h
      | ok t => rw [hi, exn_bind_ok] at h; exact prescFinish_mem h
    · rw [exn_pure] at h
      injection h with h2
      cases h2
      intro r hr
      exact Or.inl hr

/-- `upload_prescription` only adds records with non-empty content. -/
theorem upload_prescription_mem (embed : String → Except Exn Vec)
    (fn : String) (pdfRes : Except Exn (List String))
    (imgRes : Except Exn String) (rid now : String) (store : Store) :
    ∀ r ∈ (upload_prescription embed fn pdfRes imgRes rid now store).2,
      r ∈ store ∨ r.content ≠ "" := by
  unfold upload_prescription
  cases hb : uploadPrescriptionBody embed fn pdfRes imgRes rid now store with
  | ok res =>
    intro r hr
    exact uploadPrescriptionBody_mem (by rw [hb]) r hr
  | error e =>
    cases e <;> exact fun r hr => Or.inl hr

/-- A successful run of the `upload_report` body only adds records with
non-empty content. -/
theorem uploadReportBody_mem {embed : String → Except Exn Vec}
    {imgRes : Except Exn String} {rid now : String} {store : Store}
    {resp : ReportResp} {s' : Store}
    (h : uploadReportBody embed imgRes rid now store = .ok (resp, s')) :
    ∀ r ∈ s', r ∈ store ∨ r.content ≠ "" := by
  unfold uploadReportBody at h
  cases hi : imgRes with
  | error e => rw [hi, exn_bind_error] at h; simp at h
  | ok t =>
    rw [hi, exn_bind_ok] at h
    split at h
    · rw [exn_pure] at h
      injection h with h2
      cases h2
      intro r hr
      exact Or.inl hr
    · rename_i hst
      cases he : embed t with
      | error e => rw [he, exn_bind_error] at h; simp at h
      | ok v =>
        rw [he, exn_bind_ok, exn_pure] at h
        injection h with h2
        cases h2
        intro r hr
        rcases List.mem_append.mp hr with h1 | h2
        · exact Or.inl h1
        · right
          have hr2 : r = reportRecord rid v t now := by simpa using h2
          rw [hr2]
          show t ≠ ""
          intro ht
          apply hst
          rw [ht]
          rfl

/-- `upload_report` only adds records with non-empty content. -/
theorem upload_report_mem (embed : String → Except Exn Vec)
    (imgRes : Except Exn String) (rid now : String) (store : Store) :
    ∀ r ∈ (upload_report embed imgRes rid now store).2,
      r ∈ store ∨ r.content ≠ "" := by
  unfold upload_report
  cases hb : uploadReportBody embed imgRes rid now store with
  | ok res =>
    intro r hr
    exact uploadReportBody_mem (by rw [hb]) r hr
  | error e => exact fun r hr => Or.inl hr

/-- The vitals loop only adds records whose content is one of the entry
texts. -/
theorem vitalsLoop_mem (embed : String → Except Exn Vec) (ids : Nat → String)
    (today : String) :
    ∀ (entries : List (String × String)) (i : Nat) (store s' : Store),
      vitalsLoop embed ids today entries i store = .ok s' →
      ∀ r ∈ s', r ∈ store ∨ ∃ e ∈ entries, r.content = e.2
  | [], i, store, s', h => by
    rw [vitalsLoop, exn_pure] at h
    injection h with h2
    cases h2
    exact fun r hr => Or.inl hr
  | (m, t) :: rest, i, store, s', h => by
    rw [vitalsLoop] at h
    cases he : embed t with
    | error e => rw [he, exn_bind_error] at h; simp at h
    | ok v =>
      rw [he, exn_bind_ok] at h
      intro r hr
      rcases vitalsLoop_mem embed ids today rest (i + 1) _ s' h r hr with
        hm | ⟨e, hel, hec⟩
      · rcases List.mem_append.mp hm with h1 | h2
        · exact Or.inl h1
        · right
          refine ⟨(m, t), List.mem_cons_self _ _, ?_⟩
          have hr2 : r = vitalsRecord (ids i) v m t today := by simpa using h2
          rw [hr2]
          rfl
      · exact Or.inr ⟨e, List.mem_cons_of_mem _ hel, hec⟩

/-- A successful run of the `add_vaccination` body only adds the synthesized
vaccination record, whose content is non-empty. -/
theorem addVaccinationBody_mem {embed : String → Except Exn Vec}
    {cn : String} {dobR vacR : Except Exn Date} {vn vd rid : String}
    {store : Store} {resp : VaccResp} {s' : Store}
    (h : addVaccinationBody embed cn dobR vacR vn vd rid store =
      .ok (resp, s')) :
    ∀ r ∈ s', r ∈ store ∨ r.content ≠ "" := by
  unfold addVaccinationBody at h
  cases hd : dobR with
  | error e => rw [hd, exn_bind_error] at h; simp at h
  | ok dob =>
    rw [hd, exn_bind_ok] at h
    cases hv : vacR with
    | error e => rw [hv, exn_bind_error] at h; simp at h
    | ok vac =>
      rw [hv, exn_bind_ok] at h
      cases he : embed (vaccinationText cn vn (ageMonths dob vac) vd) with
      | error e => rw [he, exn_bind_error] at h; simp at h
      | ok v =>
        rw [he, exn_bind_ok, exn_pure] at h
        injection h with h2
        cases h2
        intro r hr
        rcases List.mem_append.mp hr with h1 | h2
        · exact Or.inl h1
        · right
          have hr2 : r = vaccinationRecord rid v cn vn (ageMonths dob vac)
              vd (vaccinationText cn vn (ageMonths dob vac) vd) := by
            simpa using h2
          rw [hr2]
          exact vaccinationText_ne cn vn (ageMonths dob vac) vd

/-- `add_vaccination` only adds records with non-empty content. -/
theorem add_vaccination_mem (embed : String → Except Exn Vec) (cn : String)
    (dobR vacR : Except Exn Date) (vn vd rid : String) (store : Store) :
    ∀ r ∈ (add_vaccination embed cn dobR vacR vn vd rid store).2,
      r ∈ store ∨ r.content ≠ "" := by
  unfold add_vaccination
  cases hb : addVaccinationBody embed cn dobR vacR vn vd rid store with
  | ok res =>
    intro r hr
    exact addVaccinationBody_mem (by rw [hb]) r hr
  | error e => exact fun r hr => Or.inl hr

/-- C1: for every pair of valid ISO-8601 dates, the vaccination age computed
by `add_vaccination` equals `(vac.year - dob.year) * 12 + (vac.month -
dob.month)`, a pure function of the two dates that ignores day-of-month; in
particular `age_months(2024-01-15, 2024-03-15) = 2`,
`age_months(2023-06-01, 2024-06-01) = 12` and
`age_months(2024-01-31, 2024-02-01) = 1`. -/
theorem add_vaccination_age_formula
    (embedF : String → Vec) (child vaccine vdstr rid : String)
    (dob vac : Date) (store : Store) :
    (add_vaccination (fun s => .ok (embedF s)) child (.ok dob) (.ok vac)
        vaccine vdstr rid store).1 =
      .ok child vaccine ((vac.year - dob.year) * 12 + (vac.month - dob.month)) ∧
    (∀ d d' : Int, ageMonths ⟨dob.year, dob.month, d⟩ ⟨vac.year, vac.month, d'⟩ =
      ageMonths dob vac) ∧
    ageMonths ⟨2024, 1, 15⟩ ⟨2024, 3, 15⟩ = 2 ∧
    ageMonths ⟨2023, 6, 1⟩ ⟨2024, 6, 1⟩ = 12 ∧
    ageMonths ⟨2024, 1, 31⟩ ⟨2024, 2, 1⟩ = 1 :=
  ⟨rfl, fun _ _ => rfl, by decide, by decide, by decide⟩

/-- C10 counterexample: with dob `2024-01-31` and vaccination date
`2024-01-01` the vaccination date strictly precedes the date of birth and a
success record is still created, but the stored `age_months` is `0`, not
negative as the claim states. -/
theorem add_vaccination_same_month_counterexample :
    Date.before ⟨2024, 1, 1⟩ ⟨2024, 1, 31⟩ ∧
    (add_vaccination (fun _ => .ok []) "Asha" (.ok ⟨2024, 1, 31⟩)
        (.ok ⟨2024, 1, 1⟩) "BCG" "2024-01-01" "id0" []).1 =
      .ok "Asha" "BCG" 0 ∧
    ((add_vaccination (fun _ => .ok []) "Asha" (.ok ⟨2024, 1, 31⟩)
        (.ok ⟨2024, 1, 1⟩) "BCG" "2024-01-01" "id0" []).2.map
      fun r => r.age_months) = [some 0] ∧
    ¬ ((0 : Int) < 0) :=
  ⟨by decide, rfl, rfl, by decide⟩

/-- C10 (amended): `add_vaccination` performs no ordering check between the
two dates: for every pair of valid ISO-8601 dates where the vaccination date
precedes the date of birth, a record is still created and returned as
success, with a non-positive `age_months` value (negative exactly when the
two dates fall in different calendar months) stored in the payload and
embedded in the synthesized sentence. -/
theorem add_vaccination_no_order_check (embedF : String → Vec)
    (child vaccine vdstr rid : String) (dob vac : Date) (store : Store)
    (hdob : dob.valid) (hvac : vac.valid) (hlt : vac.before dob) :
    add_vaccination (fun s => .ok (embedF s)) child (.ok dob) (.ok vac)
        vaccine vdstr rid store =
      (.ok child vaccine (ageMonths dob vac),
        store ++ [vaccinationRecord rid
          (embedF (vaccinationText child vaccine (ageMonths dob vac) vdstr))
          child vaccine (ageMonths dob vac) vdstr
          (vaccinationText child vaccine (ageMonths dob vac) vdstr)]) ∧
    ageMonths dob vac ≤ 0 ∧
    (ageMonths dob vac < 0 ↔ ¬(vac.year = dob.year ∧ vac.month = dob.month)) := by
  refine ⟨rfl, ?_, ?_⟩ <;>
  · unfold Date.valid at hdob hvac
    unfold Date.before at hlt
    unfold ageMonths
    omega

/-- With a non-failing embedding, the vitals loop appends exactly one record
per entry. -/
theorem vitalsLoop_pure (embedF : String → Vec) (ids : Nat → String)
    (today : String) :
    ∀ (entries : List (String × String)) (i : Nat) (store : Store),
      vitalsLoop (fun s => .ok (embedF s)) ids today entries i store =
        .ok (store ++ vitalsRecords embedF ids today entries i)
  | [], i, store => by
    simp only [vitalsLoop, vitalsRecords, List.append_nil]
    rfl
  | (m, t) :: rest, i, store => by
    simp only [vitalsLoop, vitalsRecords, upsert,
      vitalsLoop_pure embedF ids today rest (i + 1), List.append_assoc,
      List.singleton_append]
    rfl

/-- Closed instance of `add_vaccination_no_order_check`: vaccination
2022-11-20 against dob 2023-05-10 succeeds with `age_months = -6`. -/
theorem add_vaccination_no_order_check_witness :
    (add_vaccination (fun _ => .ok []) "Asha" (.ok ⟨2023, 5, 10⟩)
        (.ok ⟨2022, 11, 20⟩) "BCG" "2022-11-20" "id0" []).1 =
      .ok "Asha" "BCG" (-6) ∧
    ageMonths ⟨2023, 5, 10⟩ ⟨2022, 11, 20⟩ ≤ 0 := by
  have h := add_vaccination_no_order_check (fun _ => []) "Asha" "BCG"
    "2022-11-20" "id0" ⟨2023, 5, 10⟩ ⟨2022, 11, 20⟩ [] (by decide) (by decide)
    (by decide)
  refine ⟨?_, h.2.1⟩
  rw [h.1]
  rfl

/-- C2 counterexample: a weight of `0` is a present scalar input (the query
parameter is supplied), yet `add_vitals` persists no record at all, because
line 156 of `main.py` tests Python truthiness (`if weight:`) rather than
presence; the claim requires exactly one `weight` record here. -/
theorem add_vitals_zero_weight_counterexample :
    (some (0 : ℚ)).isSome = true ∧
    add_vitals (fun _ => .ok []) (fun _ => "0.0") (some 0) none none
        "2024-01-01" (fun _ => "id0") [] =
      .ok ("Vitals stored as long-term memory", []) := by
  constructor
  · rfl
  · simp only [add_vitals, vitalsEntries, truthyQ, truthyS, vitalsLoop]
    rfl

/-- C2 (amended): each present and truthy scalar input (a non-zero `weight`
or `height`, a non-empty `blood_pressure`) yields exactly one persisted
record of type `vitals` with the matching metric tag and the content sentence
`"<Metric> recorded: <value> <unit> on <today's date>"`, each independently
persisted; an absent input — or a present but falsy one (`0`, `""`) — yields
no record. -/
theorem add_vitals_truthy_records (embedF : String → Vec) (fmt : ℚ → String)
    (weight height : Option ℚ) (blood_pressure : Option String)
    (today : String) (ids : Nat → String) (store : Store) :
    ∃ newRecs : Store,
      add_vitals (fun s => .ok (embedF s)) fmt weight height blood_pressure
          today ids store =
        .ok ("Vitals stored as long-term memory", store ++ newRecs) ∧
      (∀ r ∈ newRecs, r.type = "vitals" ∧ r.date = some today ∧
        r.vector = embedF r.content) ∧
      ((newRecs.filter fun r => r.metric == some "weight").map Record.content =
        if truthyQ weight then
          ["Weight recorded: " ++ fmt (weight.getD 0) ++ " kg on " ++ today]
        else []) ∧
      ((newRecs.filter fun r => r.metric == some "height").map Record.content =
        if truthyQ height then
          ["Height recorded: " ++ fmt (height.getD 0) ++ " cm on " ++ today]
        else []) ∧
      ((newRecs.filter fun r => r.metric == some "bp").map Record.content =
        if truthyS blood_pressure then
          ["Blood Pressure recorded: " ++ blood_pressure.getD "" ++ " on " ++ today]
        else []) ∧
      newRecs.length = (if truthyQ weight then 1 else 0) +
        (if truthyQ height then 1 else 0) +
        (if truthyS blood_pressure then 1 else 0) := by
  refine ⟨vitalsRecords embedF ids today
    (vitalsEntries fmt weight height blood_pressure today) 0, ?_, ?_⟩
  · simp [add_vitals, vitalsLoop_pure]
  · cases hw : truthyQ weight <;> cases hh : truthyQ height <;>
      cases hb : truthyS blood_pressure <;>
      simp [vitalsEntries, hw, hh, hb, vitalsRecords, vitalsRecord]

/-- C3: an uploaded document (prescription, either modality, or report) whose
extracted text is empty or whitespace-only after trimming yields the
EmptyExtraction error payload and writes no record; consequently every
operation preserves the invariant that all persisted records have non-empty
content. -/
theorem empty_extraction_rejected :
    (∀ (embed : String → Except Exn Vec) (fn : String) (pages : List String)
      (img : Except Exn String) (rid now : String) (store : Store),
      endswith (lower fn) ".pdf" = true → strip (pdfConcat pages) = "" →
      upload_prescription embed fn (.ok pages) img rid now store =
        (.err "No readable text found", store)) ∧
    (∀ (embed : String → Except Exn Vec) (fn : String)
      (pdf : Except Exn (List String)) (t : String) (rid now : String)
      (store : Store),
      endswith (lower fn) ".pdf" = false →
      (endswith (lower fn) ".png" || endswith (lower fn) ".jpg" ||
        endswith (lower fn) ".jpeg") = true →
      strip t = "" →
      upload_prescription embed fn pdf (.ok t) rid now store =
        (.err "No readable text found", store)) ∧
    (∀ (embed : String → Except Exn Vec) (t : String) (rid now : String)
      (store : Store),
      strip t = "" →
      upload_report embed (.ok t) rid now store =
        (.err "No readable text found in image", store)) ∧
    (∀ (embed : String → Except Exn Vec) (fn : String)
      (pdf : Except Exn (List String)) (img : Except Exn String)
      (rid now : String) (store : Store),
      storeContentsNonempty store →
      storeContentsNonempty
        (upload_prescription embed fn pdf img rid now store).2) ∧
    (∀ (embed : String → Except Exn Vec) (img : Except Exn String)
      (rid now : String) (store : Store),
      storeContentsNonempty store →
      storeContentsNonempty (upload_report embed img rid now store).2) ∧
    (∀ (embed : String → Except Exn Vec) (fmt : ℚ → String)
      (w h : Option ℚ) (bp : Option String) (today : String)
      (ids : Nat → String) (store : Store) (st : String) (s' : Store),
      storeContentsNonempty store →
      add_vitals embed fmt w h bp today ids store = .ok (st, s') →
      storeContentsNonempty s') ∧
    (∀ (embed : String → Except Exn Vec) (cn : String)
      (dobR vacR : Except Exn Date) (vn vd rid : String) (store : Store),
      storeContentsNonempty store →
      storeContentsNonempty
        (add_vaccination embed cn dobR vacR vn vd rid store).2) := by
  refine ⟨?_, ?_, ?_, ?_, ?_, ?_, ?_⟩
  · intro embed fn pages img rid now store hpdf hstrip
    unfold upload_prescription uploadPrescriptionBody
    rw [hpdf]
    simp only [if_true, exn_bind_ok]
    unfold prescFinish
    rw [hstrip]
    rfl
  · intro embed fn pdf t rid now store hnpdf himg hstrip
    unfold upload_prescription uploadPrescriptionBody
    rw [hnpdf, himg]
    simp only [Bool.false_eq_true, if_false, if_true, exn_bind_ok]
    unfold prescFinish
    rw [hstrip]
    rfl
  · intro embed t rid now store hstrip
    unfold upload_report uploadReportBody
    rw [exn_bind_ok, hstrip]
    rfl
  · intro embed fn pdf img rid now store hinv r hr
    rcases upload_prescription_mem embed fn pdf img rid now store r hr with
      hm | hne
    · exact hinv r hm
    · exact hne
  · intro embed img rid now store hinv r hr
    rcases upload_report_mem embed img rid now store r hr with hm | hne
    · exact hinv r hm
    · exact hne
  · intro embed fmt w h bp today ids store st s' hinv hok r hr
    unfold add_vitals at hok
    cases hl : vitalsLoop embed ids today
        (vitalsEntries fmt w h bp today) 0 store with
    | error e => rw [hl, exn_bind_error] at hok; simp at hok
    | ok s2 =>
      rw [hl, exn_bind_ok, exn_pure] at hok
      injection hok with h2
      cases h2
      rcases vitalsLoop_mem embed ids today _ 0 store _ hl r hr with
        hm | ⟨e, hel, hec⟩
      · exact hinv r hm
      · rw [hec]
        exact vitalsEntries_text_ne fmt w h bp today e hel
  · intro embed cn dobR vacR vn vd rid store hinv r hr
    rcases add_vaccination_mem embed cn dobR vacR vn vd rid store r hr with
      hm | hne
    · exact hinv r hm
    · exact hne

/-- Closed instance of `empty_extraction_rejected`: a whitespace-only PDF
extraction and a whitespace-only OCR result are both rejected with no record
written. -/
theorem empty_extraction_rejected_witness :
    upload_prescription (fun _ => .ok []) "scan.pdf" (.ok [" ", "\n"])
        (.ok "x") "id0" "t0" [] = (.err "No readable text found", []) ∧
    upload_report (fun _ => .ok []) (.ok " \t ") "id1" "t1" [] =
      (.err "No readable text found in image", []) := by
  have h := empty_extraction_rejected
  exact ⟨h.1 (fun _ => .ok []) "scan.pdf" [" ", "\n"] (.ok "x") "id0" "t0" []
      (by decide) (by decide),
    h.2.2.1 (fun _ => .ok []) " \t " "id1" "t1" [] (by decide)⟩

/-- Totality of the lexicographic code-point order. -/
theorem lexle_total : ∀ a b : List Char, (lexle a b || lexle b a) = true
  | [], [] => rfl
  | [], _ :: _ => rfl
  | _ :: _, [] => rfl
  | a :: as, b :: bs => by
    simp only [lexle]
    rcases Nat.lt_trichotomy a.toNat b.toNat with h | h | h
    · simp [h, Nat.lt_asymm h]
    · simp [h, lexle_total as bs]
    · simp [h, Nat.lt_asymm h]

/-- Transitivity of the lexicographic code-point order. -/
theorem lexle_trans : ∀ a b c : List Char,
    lexle a b = true → lexle b c = true → lexle a c = true
  | [], _, _, _, _ => rfl
  | _ :: _, [], _, h1, _ => by simp [lexle] at h1
  | _ :: _, _ :: _, [], _, h2 => by simp [lexle] at h2
  | a :: as, b :: bs, c :: cs, h1, h2 => by
    simp only [lexle] at h1 h2 ⊢
    by_cases hab : a.toNat < b.toNat
    · by_cases hbc : b.toNat < c.toNat
      · rw [if_pos (show a.toNat < c.toNat by omega)]
      · rw [if_neg hbc] at h2
        by_cases hcb : c.toNat < b.toNat
        · rw [if_pos hcb] at h2
          exact absurd h2 (by simp)
        · rw [if_pos (show a.toNat < c.toNat by omega)]
    · rw [if_neg hab] at h1
      by_cases hba : b.toNat < a.toNat
      · rw [if_pos hba] at h1
        exact absurd h1 (by simp)
      · rw [if_neg hba] at h1
        by_cases hbc : b.toNat < c.toNat
        · rw [if_pos (show a.toNat < c.toNat by omega)]
        · rw [if_neg hbc] at h2
          by_cases hcb : c.toNat < b.toNat
          · rw [if_pos hcb] at h2
            exact absurd h2 (by simp)
          · rw [if_neg hcb] at h2
            rw [if_neg (show ¬a.toNat < c.toNat by omega),
              if_neg (show ¬c.toNat < a.toNat by omega)]
            exact lexle_trans as bs cs h1 h2

/-- C4: weight-trend retrieval returns exactly the records with
`type = "vitals"` and `metric = "weight"` (capped at 50), as
`{"date", "record"}` pairs sorted non-decreasing by their ISO-8601 date
string, and returns the explicit no-records result when the filtered set is
empty. -/
theorem weight_trend_sorted (store : Store) :
    ((store.filter isWeightPoint).take 50 = [] →
      weight_trend store = .noRecords "No weight records found") ∧
    ((store.filter isWeightPoint).take 50 ≠ [] →
      ∃ hist : List TrendEntry,
        weight_trend store = .ok "weight" hist
          "Retrieved from long-term personal health memory" ∧
        hist.Perm (((store.filter isWeightPoint).take 50).map fun p =>
          TrendEntry.mk (p.date.getD "") p.content) ∧
        hist.Pairwise fun a b => strLe a.date b.date = true) := by
  constructor
  · intro h
    unfold weight_trend
    rw [h]
    rfl
  · intro h
    refine ⟨(((store.filter isWeightPoint).take 50).map fun p =>
      TrendEntry.mk (p.date.getD "") p.content).mergeSort
        (fun a b => strLe a.date b.date), ?_, ?_, ?_⟩
    · unfold weight_trend
      rw [if_neg (by simpa [List.isEmpty_iff] using h)]
    · exact List.mergeSort_perm _ _
    · exact List.sorted_mergeSort
        (fun x y z hxy hyz =>
          lexle_trans x.date.data y.date.data z.date.data hxy hyz)
        (fun x y => lexle_total x.date.data y.date.data) _

/-- Closed instance of `weight_trend_sorted`: the empty store yields the
no-records message; a two-record store yields a date-sorted history. -/
theorem weight_trend_sorted_witness :
    weight_trend [] = .noRecords "No weight records found" ∧
    ∃ hist : List TrendEntry,
      weight_trend [vitalsRecord "idA" [] "weight" "w1" "2024-02-02",
          vitalsRecord "idB" [] "weight" "w2" "2024-01-01"] =
        .ok "weight" hist "Retrieved from long-term personal health memory" ∧
      hist.Perm [TrendEntry.mk "2024-02-02" "w1",
        TrendEntry.mk "2024-01-01" "w2"] ∧
      hist.Pairwise (fun a b => strLe a.date b.date = true) := by
  refine ⟨(weight_trend_sorted []).1 rfl, ?_⟩
  exact (weight_trend_sorted [vitalsRecord "idA" [] "weight" "w1" "2024-02-02",
    vitalsRecord "idB" [] "weight" "w2" "2024-01-01"]).2 (by decide)

/-- C5 counterexample: `ask_question` has no `try`/`except`, so a failing
embedding call escapes the handler as an uncaught exception instead of being
converted into a descriptive error payload, contradicting the claim that
every error is caught at the boundary of its operation. -/
theorem ask_question_uncaught_counterexample :
    ask_question (fun _ => .error (.generic "model backend unavailable"))
        (fun _ _ => .ok []) "what was my last prescription" =
      .error (.generic "model backend unavailable") := rfl

/-- C5 (amended): the three handlers written inside `try`/`except`
(`upload_prescription`, `upload_report`, `add_vaccination`) catch every
exception raised in their body and convert it into a descriptive error
payload with the store unchanged and no retry; the handlers without
`try`/`except` (`ask_question`, `add_vitals`, and likewise `weight_trend`)
let collaborator failures escalate out of the operation uncaught. -/
theorem boundary_error_handling :
    (∀ (embed : String → Except Exn Vec) (fn : String)
      (pdf : Except Exn (List String)) (img : Except Exn String)
      (rid now : String) (store : Store) (e : Exn),
      uploadPrescriptionBody embed fn pdf img rid now store = .error e →
      upload_prescription embed fn pdf img rid now store =
        (.err (prescExnMessage e), store)) ∧
    (∀ (embed : String → Except Exn Vec) (img : Except Exn String)
      (rid now : String) (store : Store) (e : Exn),
      uploadReportBody embed img rid now store = .error e →
      upload_report embed img rid now store = (.err e.message, store)) ∧
    (∀ (embed : String → Except Exn Vec) (cn : String)
      (dobR vacR : Except Exn Date) (vn vd rid : String) (store : Store)
      (e : Exn),
      addVaccinationBody embed cn dobR vacR vn vd rid store = .error e →
      add_vaccination embed cn dobR vacR vn vd rid store =
        (.err e.message, store)) ∧
    (∀ (m : String) (qp : Vec → Nat → Except Exn (List ScoredPoint))
      (q : String),
      ask_question (fun _ => .error (.generic m)) qp q =
        .error (.generic m)) ∧
    (∀ (m : String) (fmt : ℚ → String) (w : Option ℚ) (today : String)
      (ids : Nat → String) (store : Store),
      truthyQ w = true →
      add_vitals (fun _ => .error (.generic m)) fmt w none none today ids
        store = .error (.generic m)) := by
  refine ⟨?_, ?_, ?_, ?_, ?_⟩
  · intro embed fn pdf img rid now store e h
    unfold upload_prescription
    rw [h]
    cases e <;> rfl
  · intro embed img rid now store e h
    unfold upload_report
    rw [h]
  · intro embed cn dobR vacR vn vd rid store e h
    unfold add_vaccination
    rw [h]
  · intro m qp q
    rfl
  · intro m fmt w today ids store hw
    unfold add_vitals
    have he : vitalsEntries fmt w none none today =
        [("weight", "Weight recorded: " ++ fmt (w.getD 0) ++ " kg on " ++
          today)] := by
      simp [vitalsEntries, hw, truthyS,
        show truthyQ none = false from rfl]
    rw [he]
    rfl

/-- Closed instance of `boundary_error_handling`: one caught failure per
wrapped handler and one escaping failure per unwrapped handler. -/
theorem boundary_error_handling_witness :
    upload_prescription (fun _ => .error (.generic "encode failed")) "a.pdf"
        (.ok ["Rx"]) (.ok "x") "id0" "t0" [] = (.err "encode failed", []) ∧
    upload_report (fun _ => .ok []) (.error (.generic "cannot identify image file"))
        "id1" "t1" [] = (.err "cannot identify image file", []) ∧
    add_vaccination (fun _ => .ok []) "Asha"
        (.error (.generic "Invalid isoformat string")) (.ok ⟨2024, 1, 1⟩)
        "BCG" "2024-01-01" "id2" [] = (.err "Invalid isoformat string", []) ∧
    ask_question (fun _ => .error (.generic "down")) (fun _ _ => .ok []) "q" =
      .error (.generic "down") ∧
    add_vitals (fun _ => .error (.generic "down")) (fun _ => "7") (some 7)
        none none "2024-01-01" (fun _ => "id3") [] =
      .error (.generic "down") := by
  have h := boundary_error_handling
  exact ⟨h.1 _ "a.pdf" (.ok ["Rx"]) (.ok "x") "id0" "t0" []
      (.generic "encode failed") rfl,
    h.2.1 _ (.error (.generic "cannot identify image file")) "id1" "t1" []
      (.generic "cannot identify image file") rfl,
    h.2.2.1 _ "Asha" (.error (.generic "Invalid isoformat string"))
      (.ok ⟨2024, 1, 1⟩) "BCG" "2024-01-01" "id2" []
      (.generic "Invalid isoformat string") rfl,
    h.2.2.2.1 "down" (fun _ _ => .ok []) "q",
    h.2.2.2.2 "down" (fun _ => "7") (some 7) "2024-01-01" (fun _ => "id3") []
      (by norm_num [truthyQ])⟩

/-- C6: a question asked when the store query returns no candidates gets the
explicit no-results response (with the question and the "No relevant records
found" answer), never an error and never a placeholder entry; when candidates
exist the response carries at most 5 `{type, modality, content, score}`
entries, ordered highest similarity first (given the store's contract of
returning at most `limit` candidates ranked by score). -/
theorem ask_question_results (embedF : String → Vec)
    (query_points : Vec → Nat → Except Exn (List ScoredPoint))
    (question : String) (hq : question ≠ "")
    (hcontract : ∀ v n l, query_points v n = .ok l →
      l.length ≤ n ∧ l.Pairwise fun a b => b.score ≤ a.score) :
    (query_points (embedF question) 5 = .ok [] →
      ask_question (fun s => .ok (embedF s)) query_points question =
        .ok (.noResults question "No relevant records found")) ∧
    (∀ l, query_points (embedF question) 5 = .ok l → l ≠ [] →
      ask_question (fun s => .ok (embedF s)) query_points question =
        .ok (.results question (l.map retrievedOf)
          "Results retrieved using semantic vector similarity from stored health memory") ∧
      (l.map retrievedOf).length ≤ 5 ∧
      (l.map retrievedOf).Pairwise fun a b => b.score ≤ a.score) := by
  constructor
  · intro h
    unfold ask_question
    rw [exn_bind_ok, h, exn_bind_ok]
    rfl
  · intro l h hne
    refine ⟨?_, ?_, ?_⟩
    · unfold ask_question
      rw [exn_bind_ok, h, exn_bind_ok,
        if_neg (by simpa [List.isEmpty_iff] using hne)]
      rfl
    · simpa using (hcontract _ _ _ h).1
    · exact List.pairwise_map.mpr (hcontract _ _ _ h).2

/-- Closed instance of `ask_question_results`: an empty store yields the
explicit no-results response. -/
theorem ask_question_results_witness :
    ask_question (fun _ => .ok []) (fun _ _ => .ok [])
        "any recent lab reports" =
      .ok (.noResults "any recent lab reports" "No relevant records found") := by
  have hc : ∀ (v : Vec) (n : Nat) (l : List ScoredPoint),
      (fun _ _ => (Except.ok [] : Except Exn (List ScoredPoint))) v n =
        .ok l →
      l.length ≤ n ∧ l.Pairwise (fun a b => b.score ≤ a.score) := by
    intro v n l hl
    injection hl with h2
    cases h2
    simp
  exact (ask_question_results (fun _ => []) (fun _ _ => .ok [])
    "any recent lab reports" (by decide) hc).1 rfl

/-- The skip-empty page fold of `upload_prescription` concatenates exactly
the page texts, in order, with no separator. -/
theorem pdfConcat_foldl : ∀ (l : List String) (acc : String),
    l.foldl (fun acc t => if t == "" then acc else acc ++ t) acc =
      l.foldl (· ++ ·) acc
  | [], _ => rfl
  | t :: l, acc => by
    by_cases h : t = ""
    · subst h
      rw [List.foldl_cons, List.foldl_cons,
        if_pos (show ("" == "") = true from rfl), String.append_empty]
      exact pdfConcat_foldl l acc
    · rw [List.foldl_cons, List.foldl_cons, if_neg (by simpa using h)]
      exact pdfConcat_foldl l (acc ++ t)

/-- `pdfConcat` equals the plain page concatenation. -/
theorem pdfConcat_eq_join (pages : List String) :
    pdfConcat pages = String.join pages :=
  pdfConcat_foldl pages ""

/-- C7: a PDF prescription upload persists a record whose content is the
concatenation of the per-page extracted texts, in page order, with no
separator; a structurally invalid PDF yields the CorruptDocument error
payload ("Invalid or corrupted PDF") and writes no record. -/
theorem upload_prescription_pdf_concat (embedF : String → Vec) (fn : String)
    (pages : List String) (img : Except Exn String) (rid now : String)
    (store : Store)
    (hpdf : endswith (lower fn) ".pdf" = true)
    (hne : strip (String.join pages) ≠ "") :
    upload_prescription (fun s => .ok (embedF s)) fn (.ok pages) img rid now
        store =
      (.ok "pdf" (String.join pages).length,
        upsert (prescriptionRecord rid (embedF (String.join pages)) "pdf"
          (String.join pages) now) store) ∧
    pdfConcat pages = String.join pages ∧
    (∀ img2, upload_prescription (fun s => .ok (embedF s)) fn
        (.error .pdfRead) img2 rid now store =
      (.err "Invalid or corrupted PDF", store)) := by
  refine ⟨?_, pdfConcat_eq_join pages, ?_⟩
  · unfold upload_prescription uploadPrescriptionBody
    rw [hpdf]
    simp only [if_true, exn_bind_ok]
    unfold prescFinish
    rw [pdfConcat_eq_join pages,
      if_neg (show ¬(strip (String.join pages) == "") = true by
        simpa using hne),
      exn_bind_ok, exn_pure]
  · intro img2
    unfold upload_prescription uploadPrescriptionBody
    rw [hpdf]
    simp only [if_true, exn_bind_error]

/-- Closed instance of `upload_prescription_pdf_concat`: two pages are stored
as their separator-free concatenation, and a corrupt PDF is rejected. -/
theorem upload_prescription_pdf_concat_witness :
    upload_prescription (fun _ => .ok []) "rx.pdf" (.ok ["Amoxicillin ", "250mg"])
        (.ok "") "id0" "t0" [] =
      (.ok "pdf" ("Amoxicillin 250mg" : String).length,
        upsert (prescriptionRecord "id0" [] "pdf" "Amoxicillin 250mg" "t0")
          []) ∧
    upload_prescription (fun _ => .ok []) "rx.pdf" (.error .pdfRead) (.ok "")
        "id1" "t1" [] = (.err "Invalid or corrupted PDF", []) := by
  have h := upload_prescription_pdf_concat (fun _ => []) "rx.pdf"
    ["Amoxicillin ", "250mg"] (.ok "") "id0" "t0" [] (by decide) (by decide)
  have h2 := upload_prescription_pdf_concat (fun _ => []) "rx.pdf"
    ["Amoxicillin ", "250mg"] (.ok "") "id1" "t1" [] (by decide) (by decide)
  exact ⟨h.1, h2.2.2 (.ok "")⟩

/-- C8: prescription uploads are classified by file-name suffix: `.pdf`
yields the pdf modality, `.png`/`.jpg`/`.jpeg` yield the image modality, and
any other suffix yields the "Unsupported file type" error payload (returned
to the caller, not fatal) with no record written. -/
theorem upload_prescription_classification :
    (∀ (embedF : String → Vec) (fn : String) (pages : List String)
      (img : Except Exn String) (rid now : String) (store : Store),
      endswith (lower fn) ".pdf" = true →
      strip (pdfConcat pages) ≠ "" →
      upload_prescription (fun s => .ok (embedF s)) fn (.ok pages) img rid
          now store =
        (.ok "pdf" (pdfConcat pages).length,
          upsert (prescriptionRecord rid (embedF (pdfConcat pages)) "pdf"
            (pdfConcat pages) now) store)) ∧
    (∀ (embedF : String → Vec) (fn : String)
      (pdf : Except Exn (List String)) (t : String) (rid now : String)
      (store : Store),
      endswith (lower fn) ".pdf" = false →
      (endswith (lower fn) ".png" || endswith (lower fn) ".jpg" ||
        endswith (lower fn) ".jpeg") = true →
      strip t ≠ "" →
      upload_prescription (fun s => .ok (embedF s)) fn pdf (.ok t) rid now
          store =
        (.ok "image" t.length,
          upsert (prescriptionRecord rid (embedF t) "image" t now) store)) ∧
    (∀ (embed : String → Except Exn Vec) (fn : String)
      (pdf : Except Exn (List String)) (img : Except Exn String)
      (rid now : String) (store : Store),
      endswith (lower fn) ".pdf" = false →
      (endswith (lower fn) ".png" || endswith (lower fn) ".jpg" ||
        endswith (lower fn) ".jpeg") = false →
      upload_prescription embed fn pdf img rid now store =
        (.err "Unsupported file type", store)) := by
  refine ⟨?_, ?_, ?_⟩
  · intro embedF fn pages img rid now store hpdf hne
    unfold upload_prescription uploadPrescriptionBody
    rw [hpdf]
    simp only [if_true, exn_bind_ok]
    unfold prescFinish
    rw [if_neg (show ¬(strip (pdfConcat pages) == "") = true by
        simpa using hne),
      exn_bind_ok, exn_pure]
  · intro embedF fn pdf t rid now store hnpdf himg hne
    unfold upload_prescription uploadPrescriptionBody
    rw [hnpdf, himg]
    simp only [Bool.false_eq_true, if_false, if_true, exn_bind_ok]
    unfold prescFinish
    rw [if_neg (show ¬(strip t == "") = true by simpa using hne),
      exn_bind_ok, exn_pure]
  · intro embed fn pdf img rid now store hnpdf hnimg
    unfold upload_prescription uploadPrescriptionBody
    rw [hnpdf, hnimg]
    rfl

/-- Closed instance of `upload_prescription_classification`: a `.PDF` name
is pdf, a `.jpeg` name is image, a `.txt` name is rejected. -/
theorem upload_prescription_classification_witness :
    upload_prescription (fun _ => .ok []) "rx.PDF" (.ok ["Amoxicillin 250mg"])
        (.ok "") "id0" "t0" [] =
      (.ok "pdf" (pdfConcat ["Amoxicillin 250mg"]).length,
        upsert (prescriptionRecord "id0" [] "pdf"
          (pdfConcat ["Amoxicillin 250mg"]) "t0") []) ∧
    upload_prescription (fun _ => .ok []) "scan.jpeg" (.ok [])
        (.ok "Hemoglobin 13.5") "id1" "t1" [] =
      (.ok "image" ("Hemoglobin 13.5" : String).length,
        upsert (prescriptionRecord "id1" [] "image" "Hemoglobin 13.5" "t1")
          []) ∧
    upload_prescription (fun _ => .ok []) "notes.txt" (.ok []) (.ok "x")
        "id2" "t2" [] = (.err "Unsupported file type", []) := by
  have h := upload_prescription_classification
  exact ⟨h.1 (fun _ => []) "rx.PDF" ["Amoxicillin 250mg"] (.ok "") "id0" "t0"
      [] (by decide) (by decide),
    h.2.1 (fun _ => []) "scan.jpeg" (.ok []) "Hemoglobin 13.5" "id1" "t1" []
      (by decide) (by decide) (by decide),
    h.2.2 (fun _ => .ok []) "notes.txt" (.ok []) (.ok "x") "id2" "t2" []
      (by decide) (by decide)⟩

/-- C9: a record written via the writer and then retrieved through the full
memory listing (cap 100) exposes an identical type and modality and a
content preview that is a prefix of the original content of length at most
200 characters; the listing never returns a full content longer than the
preview bound, and every listed preview is bounded by 200 characters. -/
theorem get_all_memory_roundtrip (r : Record) (store : Store)
    (hcap : store.length < 100) :
    (∃ e ∈ (get_all_memory (upsert r store)).records,
      e.id = r.id ∧ e.type = some r.type ∧ e.modality = r.modality ∧
      e.preview.data = r.content.data.take 200 ∧
      e.preview.data.length ≤ 200 ∧
      (∃ rest, e.preview.data ++ rest = r.content.data) ∧
      (200 < r.content.data.length → e.preview ≠ r.content)) ∧
    (∀ s : Store, ∀ e ∈ (get_all_memory s).records,
      e.preview.data.length ≤ 200) := by
  constructor
  · refine ⟨memEntryOf r, ?_, rfl, rfl, rfl, rfl, ?_, ?_, ?_⟩
    · unfold get_all_memory upsert
      rw [List.take_of_length_le (by simpa using Nat.succ_le_of_lt hcap)]
      exact List.mem_map_of_mem _ (List.mem_append_right _ (List.mem_singleton_self r))
    · rw [show (memEntryOf r).preview.data = r.content.data.take 200 from rfl,
        List.length_take]
      omega
    · exact ⟨r.content.data.drop 200, List.take_append_drop 200 r.content.data⟩
    · intro hlen heq
      have h2 := congrArg (fun s : String => s.data.length) heq
      simp only [show (memEntryOf r).preview.data = r.content.data.take 200
        from rfl, List.length_take] at h2
      omega
  · intro s e he
    rcases List.mem_map.mp he with ⟨p, _, hpe⟩
    rw [← hpe, show (memEntryOf p).preview.data = p.content.data.take 200
      from rfl, List.length_take]
    omega

/-- Closed instance of `get_all_memory_roundtrip` at a concrete record and
an empty store. -/
theorem get_all_memory_roundtrip_witness :
    (∃ e ∈ (get_all_memory (upsert
        (vitalsRecord "id9" [] "weight" "w9" "2024-01-01") [])).records,
      e.id = (vitalsRecord "id9" [] "weight" "w9" "2024-01-01").id ∧
      e.type = some (vitalsRecord "id9" [] "weight" "w9" "2024-01-01").type ∧
      e.modality = (vitalsRecord "id9" [] "weight" "w9" "2024-01-01").modality ∧
      e.preview.data =
        (vitalsRecord "id9" [] "weight" "w9" "2024-01-01").content.data.take 200 ∧
      e.preview.data.length ≤ 200 ∧
      (∃ rest, e.preview.data ++ rest =
        (vitalsRecord "id9" [] "weight" "w9" "2024-01-01").content.data) ∧
      (200 < (vitalsRecord "id9" [] "weight" "w9" "2024-01-01").content.data.length →
        e.preview ≠ (vitalsRecord "id9" [] "weight" "w9" "2024-01-01").content)) ∧
    (∀ s : Store, ∀ e ∈ (get_all_memory s).records,
      e.preview.data.length ≤ 200) :=
  get_all_memory_roundtrip (vitalsRecord "id9" [] "weight" "w9" "2024-01-01")
    [] (by decide)

end Swasthya
